import Mathlib

/-!
Verification development for the RidiBooks injector (src/inject.py).

The Python source is shallowly embedded: Python runtime values are `PyVal`
(with Python truthiness), the async protocol client `execute_js` is modelled
by its response-extraction behaviour over an abstract transport, the generic
polling primitive `wait_for` is modelled as a call-counting loop over a
call-indexed predicate, and the two reconciliation loops (`monitor_debuggers`
and `DebuggerMonitor._monitor_loop`) are modelled one tick at a time over
directory snapshots.  JavaScript evaluated inside the target page is modelled
where its effect matters: the console-collector setup script and the three
drain scripts act on an explicit `PageState`.
-/

namespace Ridi

/-- Python runtime values, as produced by `json.loads` and passed around the
script.  `coroutine` stands for an un-awaited coroutine object (calling an
`async def` without `await`).  JSON `null` decodes to Python `None`, hence to
`PyVal.none`. -/
inductive PyVal where
  | none
  | bool (b : Bool)
  | int (n : Int)
  | str (s : String)
  | list (xs : List PyVal)
  | dict (kvs : List (String × PyVal))
  | coroutine
deriving Repr

/-- Python truthiness (`bool(v)`): `None`, `False`, `0`, `""`, `[]`, `{}` are
falsy; a coroutine object is always truthy. -/
def truthy : PyVal → Bool
  | PyVal.none => false
  | PyVal.bool b => b
  | PyVal.int n => decide (n ≠ 0)
  | PyVal.str s => decide (s ≠ "")
  | PyVal.list xs => !xs.isEmpty
  | PyVal.dict kvs => !kvs.isEmpty
  | PyVal.coroutine => true

/-- `fields.find` for a Python dict modelled as an association list
(insertion order preserved, first binding wins as in `dict`). -/
def py_dict_get (fields : List (String × PyVal)) (k : String) : Option PyVal :=
  (fields.find? (fun p => decide (p.1 = k))).map Prod.snd

/-- Python `v.get(k, default)`: on a dict returns the binding or the default;
on any non-dict raises `AttributeError` (modelled as `Except.error`). -/
def py_get_or (v : PyVal) (k : String) (default : PyVal) : Except String PyVal :=
  match v with
  | PyVal.dict fields => Except.ok ((py_dict_get fields k).getD default)
  | _ => Except.error "AttributeError"

/-- The extraction chain of `execute_js` (src/inject.py:341):
`response.get("result", \x7b\x7d).get("result", \x7b\x7d).get("value")`.
A missing `"value"` key yields Python `None` (`PyVal.none`). -/
def extract_value (response : PyVal) : Except String PyVal :=
  match py_get_or response "result" (PyVal.dict []) with
  | Except.error e => Except.error e
  | Except.ok a =>
    match py_get_or a "result" (PyVal.dict []) with
    | Except.error e => Except.error e
    | Except.ok b => py_get_or b "value" PyVal.none

/-- `execute_js` (src/inject.py:318-344) at the response-handling level.
`transport = none` models the caught failure classes (WebSocketException,
JSONDecodeError, ConnectionError): the handler logs and returns `None`.
`transport = some response` models a successful connect/send/recv/parse with
`response` the decoded Python object; the function then runs the extraction
chain (an `AttributeError` from `.get` on a non-dict is NOT in the except
tuple and would propagate, hence the `Except`). -/
def execute_js (transport : Option PyVal) : Except String PyVal :=
  match transport with
  | Option.none => Except.ok PyVal.none
  | Option.some response => extract_value response

/-- Modelled from the spec: "a response lacking `result.result.value`" — the
nested path `result.result.value` is present in the decoded response. -/
def has_value_path (response : PyVal) : Bool :=
  match response with
  | PyVal.dict f1 =>
    match py_dict_get f1 "result" with
    | Option.some (PyVal.dict f2) =>
      match py_dict_get f2 "result" with
      | Option.some (PyVal.dict f3) => (py_dict_get f3 "value").isSome
      | _ => false
    | _ => false
  | _ => false

/-- The `.get` chain of `execute_js` traverses only dicts or missing keys
(so no `AttributeError` is raised): the response is a dict and each present
intermediate `"result"` binding is itself a dict. -/
def chain_dictlike (response : PyVal) : Bool :=
  match response with
  | PyVal.dict f1 =>
    match py_dict_get f1 "result" with
    | Option.none => true
    | Option.some (PyVal.dict f2) =>
      match py_dict_get f2 "result" with
      | Option.none => true
      | Option.some (PyVal.dict _) => true
      | Option.some _ => false
    | Option.some _ => false
  | _ => false

/-- A CDP response of a successful evaluation that legitimately returned
JavaScript `null`: `json.loads` decodes the inner `"value": null` to Python
`None`. -/
def null_success_response : PyVal :=
  PyVal.dict [("id", PyVal.int 1),
              ("result", PyVal.dict [("result", PyVal.dict [("value", PyVal.none)])])]

/-- A CDP response that accepted the connection but carries no
`result.result.value` payload (e.g. an error response). -/
def missing_payload_response : PyVal :=
  PyVal.dict [("id", PyVal.int 1)]

/-- One call of the `wait_for` predicate (`condition_func()` in
src/inject.py:361): it either raises (caught by the broad handler) or
returns a Python value. -/
inductive Attempt where
  | raises
  | val (v : PyVal)

/-- Whether an attempt counts as "condition met" in `wait_for`: a raise never
does; a returned value does iff it is truthy (`if result:`). -/
def attempt_truthy : Attempt → Bool
  | Attempt.raises => false
  | Attempt.val v => truthy v

/-- `MAX_WAIT` (src/inject.py:45): the default attempt budget of `wait_for`. -/
def MAX_WAIT : Nat := 1000

/-- The loop of `wait_for` (src/inject.py:359-370), counting predicate calls.
`f` gives the outcome of the predicate on its n-th call (0-indexed),
`fuel` the remaining attempts, `calls` the calls made so far.  Returns
(condition met?, total calls made).  The `await asyncio.sleep` between
attempts has no effect on this state and is not modelled. -/
def wait_for_go (f : Nat → Attempt) : Nat → Nat → Bool × Nat
  | 0, calls => (false, calls)
  | Nat.succ fuel, calls =>
    match f calls with
    | Attempt.raises => wait_for_go f fuel (calls + 1)
    | Attempt.val v => if truthy v then (true, calls + 1) else wait_for_go f fuel (calls + 1)

/-- `wait_for(condition_func, max_attempts)` (src/inject.py:347-370). -/
def wait_for (f : Nat → Attempt) (max_attempts : Nat) : Bool × Nat :=
  wait_for_go f max_attempts 0

/-- The JavaScript expressions handed to `execute_js` by the injector,
treated as opaque scripts (their text in src/inject.py):
`viewerCheck` is the location.href suffix check (line 584), `iframeCheck`
the querySelector iframe test (line 589), `animFrames60` the 60-frame
pacing script (line 597), `oneAnimFrame` the single-frame wait (line 645),
`probeOne` the liveness probe expression "1" (line 641); the two payload
constructors carry the text read from the external script files. -/
inductive Script where
  | viewerCheck
  | iframeCheck
  | animFrames60
  | oneAnimFrame
  | probeOne
  | jszipPayload (content : String)
  | injectPayload (content : String)
deriving DecidableEq, Repr

/-- The iframe-wait predicate of `inject_to_viewer` (src/inject.py:589):
`lambda: execute_js(ws_url, ...)`.  `execute_js` is an `async def` and the
lambda calls it WITHOUT `await`, so evaluating the predicate produces the
un-awaited coroutine object itself — regardless of whether the page's DOM
actually contains an iframe (`page_has_iframe`) and of the call number. -/
def iframe_condition (page_has_iframe : Bool) : Nat → Attempt :=
  fun _ => Attempt.val PyVal.coroutine

/-- `inject_to_viewer` (src/inject.py:574-608).  `eval` gives the awaited
result of `execute_js` for each script actually evaluated in the page,
`page_has_iframe` the page's DOM state, `jszip_js` / `inject_js` the module
constants `JSZIP_JS` / `INJECT_JS` (`read_file` returns the file text or
`False`; `Option.none` models `False`).  Returns the Python return value of
the function together with the trace of scripts evaluated (awaited) in the
page, in order.  Note the function body ends with a bare
`await execute_js(ws_url, INJECT_JS)` and no return statement, so the
success path returns Python `None`. -/
def inject_to_viewer (eval : Script → PyVal) (page_has_iframe : Bool)
    (jszip_js inject_js : Option String) : PyVal × List Script :=
  if ¬ truthy (eval Script.viewerCheck) then
    (PyVal.bool false, [Script.viewerCheck])
  else if ¬ (wait_for (iframe_condition page_has_iframe) MAX_WAIT).1 then
    (PyVal.bool false, [Script.viewerCheck])
  else
    let tr1 := [Script.viewerCheck, Script.animFrames60]
    match jszip_js with
    | Option.none => (PyVal.bool false, tr1)
    | Option.some s =>
      if s = "" then (PyVal.bool false, tr1)
      else
        let tr2 := tr1 ++ [Script.jszipPayload s]
        match inject_js with
        | Option.none => (PyVal.bool false, tr2)
        | Option.some t =>
          if t = "" then (PyVal.bool false, tr2)
          else (PyVal.none, tr2 ++ [Script.injectPayload t])

/-- The caller's success test in `monitor_debuggers` (src/inject.py:649-658):
`result = await inject_to_viewer(ws_url); if result:` logs
"Successfully injected", else "Not a viewer or injection failed". -/
def monitor_logs_success (result : PyVal) : Bool := truthy result

/-- One session descriptor from the discovery endpoint
(`{"id": ..., "webSocketDebuggerUrl": ...}`). -/
structure Debugger where
  id : String
  wsUrl : String
deriving DecidableEq, Repr

/-- Observable per-tick events of the `monitor_debuggers` loop:
ids whose liveness probe ran, ids dispatched to `inject_to_viewer`,
ids that got the "Could not connect to debugger" warning. -/
structure ReconEvents where
  probed : List String
  injections : List String
  warned : List String
deriving DecidableEq, Repr

/-- One tick of the `monitor_debuggers` loop body (src/inject.py:627-665).
`snap` is the result of `get_debuggers`: `Option.none` for a failed read,
`Option.some ds` for a parsed snapshot.  `probe` gives the truthiness of the
awaited `execute_js(ws_url, "1")` liveness probe for a websocket address.
Returns the new `known_ids` and the tick's events.  Note `if not debuggers:`
treats an EMPTY snapshot exactly like a failed read (both are falsy): the
tick is skipped and `known_ids` is left unchanged. -/
def monitor_debuggers_tick (known : List String) (snap : Option (List Debugger))
    (probe : String → PyVal) : List String × ReconEvents :=
  match snap with
  | Option.none => (known, ⟨[], [], []⟩)
  | Option.some ds =>
    if ds.isEmpty then (known, ⟨[], [], []⟩)
    else
      let newDs := ds.filter (fun d => decide (d.id ∉ known))
      let probed := newDs.map Debugger.id
      let injections := (newDs.filter (fun d => truthy (probe d.wsUrl))).map Debugger.id
      let warned := (newDs.filter (fun d => ¬ truthy (probe d.wsUrl))).map Debugger.id
      (ds.map Debugger.id, ⟨probed, injections, warned⟩)

/-- `known_ids` after running the `monitor_debuggers` loop over a sequence of
directory snapshots (one per tick), starting from `known`. -/
def monitor_debuggers_run (probe : String → PyVal) (known : List String)
    (snaps : List (Option (List Debugger))) : List String :=
  snaps.foldl (fun k s => (monitor_debuggers_tick k s probe).1) known

/-- The most recent snapshot that was successfully retrieved (the claim's
"most recent successfully retrieved snapshot"): the last `Option.some`
element of the tick sequence, empty snapshots included. -/
def last_some : List (Option (List Debugger)) → Option (List Debugger)
  | [] => Option.none
  | s :: rest =>
    match last_some rest with
    | Option.some ds => Option.some ds
    | Option.none => s

/-- A single snapshot, viewed as "consumable" by the loop: a successfully
retrieved non-empty snapshot survives, a failed read or an empty snapshot
does not. -/
def head_nonempty (s : Option (List Debugger)) : Option (List Debugger) :=
  match s with
  | Option.some ds => if ds.isEmpty then Option.none else Option.some ds
  | Option.none => Option.none

/-- The most recent successfully retrieved NON-EMPTY snapshot (the only kind
of snapshot the loop actually consumes, because of `if not debuggers:`). -/
def last_nonempty : List (Option (List Debugger)) → Option (List Debugger)
  | [] => Option.none
  | s :: rest =>
    match last_nonempty rest with
    | Option.some ds => Option.some ds
    | Option.none => head_nonempty s

/-- Keys of a Python dict modelled as an association list. -/
def keys (m : List (String × String)) : List String := m.map Prod.fst

/-- Python `m[k] = v` on a dict: update in place if the key exists,
else append a new binding. -/
def dict_set (m : List (String × String)) (k v : String) : List (String × String) :=
  if m.any (fun p => decide (p.1 = k)) then
    m.map (fun p => if p.1 = k then (k, v) else p)
  else m ++ [(k, v)]

/-- One tick of `DebuggerMonitor._monitor_loop` (src/inject.py:405-442)
restricted to the `active_debuggers` bookkeeping: additions, then removals.
Returns the new `active_debuggers` map and the list of ids logged as closed.
Again `if debuggers:` treats an empty snapshot like a failed read: the whole
update is skipped.  (The per-session output polling that follows does not
touch `active_debuggers` and is modelled separately via `PageState`.) -/
def monitor_loop_tick (active : List (String × String)) (snap : Option (List Debugger)) :
    List (String × String) × List String :=
  match snap with
  | Option.none => (active, [])
  | Option.some ds =>
    if ds.isEmpty then (active, [])
    else
      let current_ids := ds.map Debugger.id
      let newDs := ds.filter (fun d => decide (d.id ∉ keys active))
      let afterAdd := newDs.foldl (fun m d => dict_set m d.id d.wsUrl) active
      let closed := (keys afterAdd).filter (fun i => decide (i ∉ current_ids))
      let afterRemove := afterAdd.filter (fun p => decide (p.1 ∈ current_ids))
      (afterRemove, closed)

/-- The in-page state touched by the console-collector scripts
(src/inject.py:446-567): the setup flag `__ridiInjector_consoleCollectorSetup`,
the output-enable flag `__enableConsoleOutput`, the three buffers, and the
number of wrapper layers installed around the console functions
(`logWrapDepth`; the original, unwrapped functions are depth 0). -/
structure PageState where
  collectorSetup : Bool
  enableConsoleOutput : Bool
  messages : List String
  errors : List String
  warnings : List String
  logWrapDepth : Nat
deriving DecidableEq, Repr

/-- The collector setup script of `_setup_console_collector`
(src/inject.py:518-567) as a transition on the page state: if the setup flag
is already set it returns "already-setup" immediately and changes nothing;
otherwise it clears the flags and buffers, wraps console.log / console.error
/ console.warn once (one more wrapper layer), installs the uncaught-error
listener, sets the flag and returns "setup-complete". -/
def setup_console_collector_script (st : PageState) : PageState × PyVal :=
  if st.collectorSetup then (st, PyVal.str "already-setup")
  else (⟨true, false, [], [], [], st.logWrapDepth + 1⟩, PyVal.str "setup-complete")

/-- The messages drain script of `_poll_debugger_output`
(src/inject.py:458-467): a single evaluation that reads
`__ridiInjector_consoleMessages`, resets it to `[]`, and returns the prior
contents (a JS array of strings). -/
def drain_messages (st : PageState) : PageState × PyVal :=
  (⟨st.collectorSetup, st.enableConsoleOutput, [], st.errors, st.warnings, st.logWrapDepth⟩,
   PyVal.list (st.messages.map PyVal.str))

/-- The errors drain script (src/inject.py:478-487), same shape for
`__ridiInjector_consoleErrors`. -/
def drain_errors (st : PageState) : PageState × PyVal :=
  (⟨st.collectorSetup, st.enableConsoleOutput, st.messages, [], st.warnings, st.logWrapDepth⟩,
   PyVal.list (st.errors.map PyVal.str))

/-- The warnings drain script (src/inject.py:494-503), same shape for
`__ridiInjector_consoleWarnings`. -/
def drain_warnings (st : PageState) : PageState × PyVal :=
  (⟨st.collectorSetup, st.enableConsoleOutput, st.messages, st.errors, [], st.logWrapDepth⟩,
   PyVal.list (st.warnings.map PyVal.str))

/-- An evaluation oracle under which every in-page script evaluates truthy
(a viewer page with everything responsive). -/
def eval_true : Script → PyVal := fun _ => PyVal.bool true

/-- A concrete session descriptor. -/
def dbgA : Debugger := ⟨"A", "ws-A"⟩

/-- A probe environment in which every liveness probe fails
(`execute_js(ws_url, "1")` returns `None`). -/
def probe_fail : String → PyVal := fun _ => PyVal.none

/-- A predicate that raises on its first two calls and returns `True` on the
third. -/
def raise_twice_then_true : Nat → Attempt :=
  fun i => if i < 2 then Attempt.raises else Attempt.val (PyVal.bool true)

/-- A predicate that raises on every call. -/
def always_raise : Nat → Attempt := fun _ => Attempt.raises

/-- If no call of the predicate ever counts as truthy, the `wait_for` loop
consumes all its fuel and reports failure, having made one call per unit of
fuel. -/
theorem wait_for_go_all_falsy (f : Nat → Attempt)
    (h : ∀ i, attempt_truthy (f i) = false) :
    ∀ (fuel calls : Nat), wait_for_go f fuel calls = (false, calls + fuel) := by
  intro fuel
  induction fuel with
  | zero => intro calls; simp [wait_for_go]
  | succ m ih =>
    intro calls
    cases hf : f calls with
    | raises =>
      simp only [wait_for_go, hf]
      rw [ih (calls + 1)]
      have : calls + 1 + m = calls + (m + 1) := by omega
      rw [this]
    | val v =>
      have hv : truthy v = false := by
        have := h calls
        rw [hf] at this
        exact this
      have hcond : ¬ (truthy v = true) := by simp [hv]
      simp only [wait_for_go, hf]
      rw [if_neg hcond, ih (calls + 1)]
      have : calls + 1 + m = calls + (m + 1) := by omega
      rw [this]

/-- If call `j` is the first call that counts as truthy and there is fuel
left to reach it, the `wait_for` loop stops right after call `j` with
success. -/
theorem wait_for_go_first_truthy (f : Nat → Attempt) :
    ∀ (fuel calls j : Nat), calls ≤ j → j < calls + fuel →
    (∀ i, calls ≤ i → i < j → attempt_truthy (f i) = false) →
    attempt_truthy (f j) = true →
    wait_for_go f fuel calls = (true, j + 1) := by
  intro fuel
  induction fuel with
  | zero => intro calls j h1 h2; omega
  | succ m ih =>
    intro calls j h1 h2 hfalsy hj
    rcases Nat.eq_or_lt_of_le h1 with heq | hlt
    · subst heq
      cases hf : f calls with
      | raises => rw [hf] at hj; exact absurd hj (by simp [attempt_truthy])
      | val v =>
        have hv : truthy v = true := by rw [hf] at hj; exact hj
        simp [wait_for_go, hf, hv]
    · have hc : attempt_truthy (f calls) = false := hfalsy calls (Nat.le_refl _) hlt
      have step : wait_for_go f m (calls + 1) = (true, j + 1) := by
        apply ih (calls + 1) j hlt (by omega)
        · intro i hi1 hi2; exact hfalsy i (by omega) hi2
        · exact hj
      cases hf : f calls with
      | raises => simp only [wait_for_go, hf]; exact step
      | val v =>
        have hv : ¬ (truthy v = true) := by
          rw [hf] at hc; simp [attempt_truthy] at hc; simp [hc]
        simp only [wait_for_go, hf]
        rw [if_neg hv]
        exact step

/-- The `wait_for` loop never makes more calls than it has fuel, and a
failure verdict means every unit of fuel was spent on a call: nothing — in
particular no predicate exception — ends the loop early except a truthy
result. -/
theorem wait_for_go_count (f : Nat → Attempt) :
    ∀ (fuel calls : Nat), (wait_for_go f fuel calls).2 ≤ calls + fuel ∧
      ((wait_for_go f fuel calls).1 = false → (wait_for_go f fuel calls).2 = calls + fuel) := by
  intro fuel
  induction fuel with
  | zero => intro calls; simp [wait_for_go]
  | succ m ih =>
    intro calls
    cases hf : f calls with
    | raises =>
      simp only [wait_for_go, hf]
      refine ⟨ ?_, ?_⟩
      · have := (ih (calls + 1)).1; omega
      · intro h
        have := (ih (calls + 1)).2 h
        omega
    | val v =>
      by_cases hv : truthy v
      · simp only [wait_for_go, hf, hv, if_true]
        exact ⟨by omega, by intro h; exact absurd h (by simp)⟩
      · simp only [wait_for_go, hf]
        rw [if_neg (by simp [hv] : ¬ (truthy v = true))]
        refine ⟨ ?_, ?_⟩
        · have := (ih (calls + 1)).1; omega
        · intro h
          have := (ih (calls + 1)).2 h
          omega

/-- C7 — `wait_for` (src/inject.py:347-370) meets its polling contract:
(1) if the predicate raises (or is falsy) on every call before call `N`
(1-indexed) and is truthy on call `N` with `N` within the budget, the wait
returns success after exactly `N` predicate calls; (2) if no call ever
returns a truthy value, the wait returns failure after exactly `budget`
calls and performs no further calls; (3) the call count never exceeds the
budget and a failure verdict is only reached after the full budget of
calls, so no exception raised by the predicate ever terminates the wait
early. -/
theorem C7_wait_for_contract :
    (∀ (f : Nat → Attempt) (N budget : Nat), 1 ≤ N → N ≤ budget →
      (∀ i, i < N - 1 → f i = Attempt.raises) →
      attempt_truthy (f (N - 1)) = true →
      wait_for f budget = (true, N))
    ∧ (∀ (f : Nat → Attempt) (budget : Nat),
        (∀ i, attempt_truthy (f i) = false) →
        wait_for f budget = (false, budget))
    ∧ (∀ (f : Nat → Attempt) (budget : Nat),
        (wait_for f budget).2 ≤ budget ∧
        ((wait_for f budget).1 = false → (wait_for f budget).2 = budget)) := by
  refine ⟨ ?_, ?_, ?_⟩
  · intro f N budget hN hbudget hraise hhit
    have h := wait_for_go_first_truthy f budget 0 (N - 1)
      (Nat.zero_le _) (by omega)
      (fun i _ hi => by rw [hraise i hi]; rfl) hhit
    rw [wait_for, h]
    have : N - 1 + 1 = N := by omega
    rw [this]
  · intro f budget h
    rw [wait_for, wait_for_go_all_falsy f h budget 0]
    simp
  · intro f budget
    have := wait_for_go_count f budget 0
    simpa [wait_for] using this

/-- Witness for C7 at concrete inputs: a predicate that raises twice and
succeeds on its third call returns success after exactly 3 calls out of a
budget of 5; a predicate that always raises fails after exactly 4 calls out
of a budget of 4. -/
theorem C7_wait_for_contract_witness :
    wait_for raise_twice_then_true 5 = (true, 3) ∧
    wait_for always_raise 4 = (false, 4) := by
  constructor
  · exact C7_wait_for_contract.1 raise_twice_then_true 3 5 (by decide) (by decide)
      (fun i hi => by unfold raise_twice_then_true; rw [if_pos hi]) (by decide)
  · exact C7_wait_for_contract.2.1 always_raise 4 (fun i => rfl)

/-- C6 — the iframe-readiness wait in `inject_to_viewer`
(src/inject.py:588-590) is vacuous: the predicate returns the un-awaited
coroutine object produced by calling the async `execute_js` without `await`,
which is always truthy, so for any positive attempt budget the wait returns
success after exactly one predicate call, whatever the page's DOM state —
and the iframe-check script is never actually evaluated in the page. -/
theorem C6_iframe_wait_vacuous :
    (∀ (page_has_iframe : Bool) (budget : Nat), 1 ≤ budget →
      wait_for (iframe_condition page_has_iframe) budget = (true, 1))
    ∧ (∀ (ev : Script → PyVal) (dom : Bool) (jz ij : Option String),
        Script.iframeCheck ∉ (inject_to_viewer ev dom jz ij).2) := by
  constructor
  · intro dom budget h
    cases budget with
    | zero => omega
    | succ n => rfl
  · intro ev dom jz ij
    unfold inject_to_viewer
    have hw : (wait_for (iframe_condition dom) MAX_WAIT).1 = true := rfl
    by_cases hv : truthy (ev Script.viewerCheck)
    · simp only [hv, hw, not_true, if_false, ite_false, ite_true]
      cases jz with
      | none => simp
      | some s =>
        cases ij with
        | none => by_cases hs : s = "" <;> simp [hs]
        | some t => by_cases hs : s = "" <;> by_cases ht : t = "" <;> simp [hs, ht]
    · simp [hv]

/-- Witness for C6 at concrete inputs: with the default budget `MAX_WAIT`
the vacuous wait succeeds on its first call, and a fully successful
injection run never evaluates the iframe check in the page. -/
theorem C6_iframe_wait_vacuous_witness :
    wait_for (iframe_condition true) MAX_WAIT = (true, 1) ∧
    Script.iframeCheck ∉
      (inject_to_viewer eval_true true (Option.some "L") (Option.some "M")).2 :=
  ⟨C6_iframe_wait_vacuous.1 true MAX_WAIT (by decide),
   C6_iframe_wait_vacuous.2 eval_true true (Option.some "L") (Option.some "M")⟩

/-- C4 (code bug) — `inject_to_viewer` (src/inject.py:574-608) never returns
a truthy value: every failure path returns `False`, and the success path
falls off the end of the function body and returns Python `None`, which is
falsy.  Consequently the caller's success test in `monitor_debuggers`
(src/inject.py:650, `if result:`) never fires, even on a run that completed
the full injection sequence (second conjunct: viewer check truthy, both
payloads available — the function returns `None`). -/
theorem C4_injection_never_signals_success :
    (∀ (ev : Script → PyVal) (dom : Bool) (jz ij : Option String),
      monitor_logs_success (inject_to_viewer ev dom jz ij).1 = false)
    ∧ (inject_to_viewer eval_true true (Option.some "L") (Option.some "M")).1 = PyVal.none := by
  constructor
  · intro ev dom jz ij
    unfold inject_to_viewer monitor_logs_success
    have hw : (wait_for (iframe_condition dom) MAX_WAIT).1 = true := rfl
    by_cases hv : truthy (ev Script.viewerCheck)
    · rw [if_neg (by simp [hv]), if_neg (by simp [hw])]
      cases jz with
      | none => rfl
      | some s =>
        dsimp only
        cases ij with
        | none =>
          by_cases hs : s = ""
          · rw [if_pos hs]; rfl
          · rw [if_neg hs]; rfl
        | some t =>
          dsimp only
          by_cases hs : s = ""
          · rw [if_pos hs]; rfl
          · rw [if_neg hs]
            by_cases ht : t = ""
            · rw [if_pos ht]; rfl
            · rw [if_neg ht]; rfl
    · rw [if_pos hv]; rfl
  · rfl

/-- C5 counterexample — with the library payload available and the main
payload missing (`read_file` returned `False`), `inject_to_viewer` DOES
evaluate the library payload in the page before returning failure: the
claim's "a missing main payload implies the library payload is not evaluated
either" is false on the code (src/inject.py:600-608 checks and evaluates
`JSZIP_JS` before ever looking at `INJECT_JS`). -/
theorem C5_counterexample :
    (inject_to_viewer eval_true true (Option.some "L") Option.none).1 = PyVal.bool false ∧
    Script.jszipPayload "L" ∈
      (inject_to_viewer eval_true true (Option.some "L") Option.none).2 := by
  exact ⟨rfl, by decide⟩

/-- C5 (amended) — during injection the library payload is evaluated
strictly before the main payload (whenever both appear in the evaluation
trace, the trace is exactly viewer-check, frame-pacing, library, main, in
that order); a missing library payload aborts with failure before either
payload is evaluated; a missing MAIN payload aborts with failure and the
main payload is not evaluated — but this check happens only after the
library payload has already been evaluated, so in that one case the
injection is partial. -/
theorem C5_payload_order_amended :
    (∀ (ev : Script → PyVal) (dom : Bool) (s t : String),
      Script.jszipPayload s ∈ (inject_to_viewer ev dom (Option.some s) (Option.some t)).2 →
      Script.injectPayload t ∈ (inject_to_viewer ev dom (Option.some s) (Option.some t)).2 →
      (inject_to_viewer ev dom (Option.some s) (Option.some t)).2 =
        [Script.viewerCheck, Script.animFrames60,
         Script.jszipPayload s, Script.injectPayload t])
    ∧ (∀ (ev : Script → PyVal) (dom : Bool) (ij : Option String),
        (∀ s, Script.jszipPayload s ∉ (inject_to_viewer ev dom Option.none ij).2) ∧
        (∀ t, Script.injectPayload t ∉ (inject_to_viewer ev dom Option.none ij).2) ∧
        truthy (inject_to_viewer ev dom Option.none ij).1 = false)
    ∧ (∀ (ev : Script → PyVal) (dom : Bool) (jz : Option String),
        (∀ t, Script.injectPayload t ∉ (inject_to_viewer ev dom jz Option.none).2) ∧
        truthy (inject_to_viewer ev dom jz Option.none).1 = false) := by
  have hw : ∀ dom, (wait_for (iframe_condition dom) MAX_WAIT).1 = true := fun _ => rfl
  refine ⟨ ?_, ?_, ?_⟩
  · intro ev dom s t h1 h2
    unfold inject_to_viewer at h1 h2 ⊢
    by_cases hv : truthy (ev Script.viewerCheck)
    · rw [if_neg (by simp [hv]), if_neg (by simp [hw dom])] at h1 h2 ⊢
      dsimp only at h1 h2 ⊢
      by_cases hs : s = ""
      · rw [if_pos hs] at h1; simp at h1
      · rw [if_neg hs] at h1 h2 ⊢
        by_cases ht : t = ""
        · rw [if_pos ht] at h2; simp at h2
        · rw [if_neg ht]; rfl
    · rw [if_pos hv] at h1; simp at h1
  · intro ev dom ij
    unfold inject_to_viewer
    by_cases hv : truthy (ev Script.viewerCheck)
    · rw [if_neg (by simp [hv]), if_neg (by simp [hw dom])]
      exact ⟨by simp, by simp, rfl⟩
    · rw [if_pos hv]
      exact ⟨by simp, by simp, rfl⟩
  · intro ev dom jz
    unfold inject_to_viewer
    by_cases hv : truthy (ev Script.viewerCheck)
    · rw [if_neg (by simp [hv]), if_neg (by simp [hw dom])]
      cases jz with
      | none => exact ⟨by simp, rfl⟩
      | some s =>
        dsimp only
        by_cases hs : s = ""
        · rw [if_pos hs]; exact ⟨by simp, rfl⟩
        · rw [if_neg hs]; exact ⟨by simp, rfl⟩
    · rw [if_pos hv]
      exact ⟨by simp, rfl⟩

/-- Witness for C5 at a concrete input: in a successful full run both
payloads appear in the trace, and the trace puts the library payload
strictly before the main payload. -/
theorem C5_payload_order_amended_witness :
    (inject_to_viewer eval_true true (Option.some "L") (Option.some "M")).2 =
      [Script.viewerCheck, Script.animFrames60,
       Script.jszipPayload "L", Script.injectPayload "M"] :=
  C5_payload_order_amended.1 eval_true true "L" "M" (by decide) (by decide)

/-- `py_get_or` on a dict, in extraction form. -/
theorem py_get_or_dict (fields : List (String × PyVal)) (k : String) (default : PyVal) :
    py_get_or (PyVal.dict fields) k default =
      Except.ok ((py_dict_get fields k).getD default) := rfl

/-- `py_dict_get` on the empty dict finds nothing. -/
theorem py_dict_get_nil (k : String) : py_dict_get [] k = Option.none := rfl

/-- C1 counterexample — the "failure marker" of `execute_js` is Python
`None`, and a successful evaluation that legitimately returned JavaScript
`null` decodes to exactly the same `None`: on the concrete response lacking
the `result.result.value` payload and on the concrete null-valued success
response the function returns identical values, so failure and falsy
success ARE conflated, refuting the claim's "never conflated". -/
theorem C1_counterexample :
    execute_js (Option.some missing_payload_response) =
      execute_js (Option.some null_success_response) ∧
    has_value_path missing_payload_response = false ∧
    has_value_path null_success_response = true := ⟨rfl, rfl, rfl⟩

/-- C1 (amended) — when the transport connection succeeds and the decoded
response is an object whose `.get` chain raises no `AttributeError` but
lacks the nested `result.result.value` payload, `execute_js` returns Python
`None` (no exception).  This `None` is distinguishable from a successful
evaluation that returned `false`, an empty string or an empty list — but it
coincides with a successful evaluation that returned `null`, so failure and
null-valued falsy success are conflated. -/
theorem C1_failure_marker_amended (resp : PyVal)
    (hchain : chain_dictlike resp = true) (hmiss : has_value_path resp = false) :
    execute_js (Option.some resp) = Except.ok PyVal.none ∧
    execute_js (Option.some null_success_response) = Except.ok PyVal.none ∧
    PyVal.none ≠ PyVal.bool false ∧ PyVal.none ≠ PyVal.str "" ∧
    PyVal.none ≠ PyVal.list [] := by
  refine ⟨ ?_, rfl, by simp, by simp, by simp⟩
  cases resp with
  | dict f1 =>
    show extract_value (PyVal.dict f1) = Except.ok PyVal.none
    cases hg1 : py_dict_get f1 "result" with
    | none => simp [extract_value, py_get_or_dict, hg1, py_dict_get_nil]
    | some v =>
      cases v with
      | dict f2 =>
        cases hg2 : py_dict_get f2 "result" with
        | none => simp [extract_value, py_get_or_dict, hg1, hg2, py_dict_get_nil]
        | some w =>
          cases w with
          | dict f3 =>
            cases hg3 : py_dict_get f3 "value" with
            | none => simp [extract_value, py_get_or_dict, hg1, hg2, hg3]
            | some u => simp [has_value_path, hg1, hg2, hg3] at hmiss
          | none => simp [chain_dictlike, hg1, hg2] at hchain
          | bool b => simp [chain_dictlike, hg1, hg2] at hchain
          | int n => simp [chain_dictlike, hg1, hg2] at hchain
          | str s => simp [chain_dictlike, hg1, hg2] at hchain
          | list xs => simp [chain_dictlike, hg1, hg2] at hchain
          | coroutine => simp [chain_dictlike, hg1, hg2] at hchain
      | none => simp [chain_dictlike, hg1] at hchain
      | bool b => simp [chain_dictlike, hg1] at hchain
      | int n => simp [chain_dictlike, hg1] at hchain
      | str s => simp [chain_dictlike, hg1] at hchain
      | list xs => simp [chain_dictlike, hg1] at hchain
      | coroutine => simp [chain_dictlike, hg1] at hchain
  | none => simp [chain_dictlike] at hchain
  | bool b => simp [chain_dictlike] at hchain
  | int n => simp [chain_dictlike] at hchain
  | str s => simp [chain_dictlike] at hchain
  | list xs => simp [chain_dictlike] at hchain
  | coroutine => simp [chain_dictlike] at hchain

/-- Witness for C1 at a concrete input: the payload-lacking response
satisfies both hypotheses and yields `None`. -/
theorem C1_failure_marker_amended_witness :
    chain_dictlike missing_payload_response = true ∧
    has_value_path missing_payload_response = false ∧
    execute_js (Option.some missing_payload_response) = Except.ok PyVal.none :=
  ⟨rfl, rfl, (C1_failure_marker_amended missing_payload_response rfl rfl).1⟩

/-- C2 counterexample — the sequence snapshot `[A]` then snapshot `[]`
(both successfully retrieved): after the two ticks `known_ids` is still
`["A"]`, although the most recent successfully retrieved snapshot is the
empty one, whose id set is empty.  `if not debuggers:` in
`monitor_debuggers` (src/inject.py:629) treats the valid empty snapshot
like a failed directory read, refuting the claim. -/
theorem C2_counterexample :
    last_some [Option.some [dbgA], Option.some []] = Option.some [] ∧
    monitor_debuggers_run probe_fail [] [Option.some [dbgA], Option.some []] = ["A"] ∧
    (["A"] : List String) ≠ ([] : List Debugger).map Debugger.id := by
  exact ⟨rfl, rfl, by simp⟩

/-- C2 (amended) — for every sequence of directory snapshots, after the
reconciliation loop's ticks the known-session id set equals the id set of
the most recent successfully retrieved NON-EMPTY snapshot (or the initial
set if there was none): ticks on which the directory read failed AND ticks
whose snapshot was empty both leave the known-id set unchanged. -/
theorem C2_known_ids_amended (probe : String → PyVal) (known : List String)
    (snaps : List (Option (List Debugger))) :
    monitor_debuggers_run probe known snaps =
      (match last_nonempty snaps with
       | Option.some ds => ds.map Debugger.id
       | Option.none => known) := by
  induction snaps generalizing known with
  | nil => rfl
  | cons s rest ih =>
    have hstep : monitor_debuggers_run probe known (s :: rest) =
        monitor_debuggers_run probe (monitor_debuggers_tick known s probe).1 rest := rfl
    rw [hstep, ih]
    cases hr : last_nonempty rest with
    | some ds =>
      have hc : last_nonempty (s :: rest) = Option.some ds := by
        simp [last_nonempty, hr]
      rw [hc]
    | none =>
      have hc : last_nonempty (s :: rest) = head_nonempty s := by
        simp [last_nonempty, hr]
      rw [hc]
      cases s with
      | none => rfl
      | some ds =>
        by_cases h : ds.isEmpty = true
        · have hh : head_nonempty (Option.some ds) = Option.none := by
            simp [head_nonempty, h]
          rw [hh]
          show (monitor_debuggers_tick known (Option.some ds) probe).1 = known
          unfold monitor_debuggers_tick
          dsimp only
          rw [if_pos h]
        · have hh : head_nonempty (Option.some ds) = Option.some ds := by
            simp [head_nonempty, h]
          rw [hh]
          show (monitor_debuggers_tick known (Option.some ds) probe).1 = ds.map Debugger.id
          unfold monitor_debuggers_tick
          dsimp only
          rw [if_neg h]

/-- Characterization of one non-empty-snapshot tick of `monitor_debuggers`
(src/inject.py:633-664): new debuggers are those whose id is not yet known;
all of them are probed; the ones with a truthy probe are dispatched to
injection, the others draw the could-not-connect warning; and `known_ids`
is replaced by the snapshot's full id set. -/
theorem monitor_debuggers_tick_nonempty (known : List String) (ds : List Debugger)
    (probe : String → PyVal) (h : ¬ (ds.isEmpty = true)) :
    monitor_debuggers_tick known (Option.some ds) probe =
      (ds.map Debugger.id,
       ⟨(ds.filter (fun d2 => decide (d2.id ∉ known))).map Debugger.id,
        ((ds.filter (fun d2 => decide (d2.id ∉ known))).filter
          (fun d2 => truthy (probe d2.wsUrl))).map Debugger.id,
        ((ds.filter (fun d2 => decide (d2.id ∉ known))).filter
          (fun d2 => ¬ truthy (probe d2.wsUrl))).map Debugger.id⟩) := by
  unfold monitor_debuggers_tick
  dsimp only
  rw [if_neg h]

/-- C3 counterexample — session "A" appears in the snapshot and its
liveness probe fails: the warning fires and no injection is attempted, but
at the end of the tick "A" IS in `known_ids` (the snapshot replacement at
src/inject.py:664 includes it), and on the next tick with the same snapshot
"A" is no longer treated as new, so it is NOT re-probed — refuting the
claim's "does not mark that id as known, so ... re-probed on the next
tick". -/
theorem C3_counterexample :
    truthy (probe_fail dbgA.wsUrl) = false ∧
    (monitor_debuggers_tick [] (Option.some [dbgA]) probe_fail).2.warned = ["A"] ∧
    (monitor_debuggers_tick [] (Option.some [dbgA]) probe_fail).2.injections = [] ∧
    (monitor_debuggers_tick [] (Option.some [dbgA]) probe_fail).1 = ["A"] ∧
    (monitor_debuggers_tick ["A"] (Option.some [dbgA]) probe_fail).2.probed = [] := by
  exact ⟨rfl, rfl, rfl, rfl, rfl⟩

/-- C3 (amended) — on a tick with a (non-empty) snapshot, a newly
discovered session whose liveness probe fails draws the warning and is not
dispatched to injection; but its id is nevertheless recorded as known by
the end-of-tick snapshot replacement, so on the next tick with the same
snapshot it is NOT probed again.  (The hypothesis `huniq` reflects the
spec's per-snapshot id uniqueness: within one snapshot an id determines its
transport address.) -/
theorem C3_probe_fail_amended (ds : List Debugger) (probe : String → PyVal)
    (known : List String) (d : Debugger)
    (hmem : d ∈ ds) (hnew : d.id ∉ known)
    (hprobe : truthy (probe d.wsUrl) = false)
    (huniq : ∀ d2 ∈ ds, d2.id = d.id → d2.wsUrl = d.wsUrl) :
    d.id ∈ (monitor_debuggers_tick known (Option.some ds) probe).2.warned ∧
    d.id ∉ (monitor_debuggers_tick known (Option.some ds) probe).2.injections ∧
    d.id ∈ (monitor_debuggers_tick known (Option.some ds) probe).1 ∧
    d.id ∉ (monitor_debuggers_tick
        (monitor_debuggers_tick known (Option.some ds) probe).1
        (Option.some ds) probe).2.probed := by
  have hne : ¬ (ds.isEmpty = true) := by
    cases ds with
    | nil => exact absurd hmem (List.not_mem_nil d)
    | cons a l => simp
  have htick := monitor_debuggers_tick_nonempty known ds probe hne
  have hdnew : d ∈ ds.filter (fun d2 => decide (d2.id ∉ known)) :=
    List.mem_filter.mpr ⟨hmem, by simpa using hnew⟩
  refine ⟨ ?_, ?_, ?_, ?_⟩
  · rw [htick]
    exact List.mem_map_of_mem Debugger.id
      (List.mem_filter.mpr ⟨hdnew, by simp [hprobe]⟩)
  · rw [htick]
    intro hcon
    obtain ⟨d2, hd2, hid⟩ := List.mem_map.mp hcon
    have h1 := List.mem_filter.mp hd2
    have h2 := List.mem_filter.mp h1.1
    have hws := huniq d2 h2.1 hid
    rw [hws, hprobe] at h1
    exact absurd h1.2 (by simp)
  · rw [htick]
    exact List.mem_map_of_mem Debugger.id hmem
  · rw [htick]
    rw [monitor_debuggers_tick_nonempty (ds.map Debugger.id) ds probe hne]
    intro hcon
    obtain ⟨d2, hd2, hid⟩ := List.mem_map.mp hcon
    have h1 := List.mem_filter.mp hd2
    have : d2.id ∉ ds.map Debugger.id := by simpa using h1.2
    exact this (List.mem_map_of_mem Debugger.id h1.1)

/-- Witness for C3 at a concrete input: session "A" with a failing probe,
over two ticks of the same singleton snapshot. -/
theorem C3_probe_fail_amended_witness :
    dbgA.id ∈ (monitor_debuggers_tick [] (Option.some [dbgA]) probe_fail).2.warned ∧
    dbgA.id ∉ (monitor_debuggers_tick [] (Option.some [dbgA]) probe_fail).2.injections ∧
    dbgA.id ∈ (monitor_debuggers_tick [] (Option.some [dbgA]) probe_fail).1 ∧
    dbgA.id ∉ (monitor_debuggers_tick
        (monitor_debuggers_tick [] (Option.some [dbgA]) probe_fail).1
        (Option.some [dbgA]) probe_fail).2.probed :=
  C3_probe_fail_amended [dbgA] probe_fail [] dbgA (by decide) (by decide) rfl
    (by decide)

/-- Python dict assignment never loses an existing key: membership in the
key list is preserved by `dict_set`. -/
theorem mem_keys_dict_set (m : List (String × String)) (k v i : String)
    (h : i ∈ keys m) : i ∈ keys (dict_set m k v) := by
  unfold dict_set
  by_cases hc : m.any (fun p => decide (p.1 = k)) = true
  · rw [if_pos hc]
    unfold keys at h ⊢
    rw [List.map_map]
    obtain ⟨p, hp, hpi⟩ := List.mem_map.mp h
    refine List.mem_map.mpr ⟨p, hp, ?_⟩
    show (if p.1 = k then (k, v) else p).1 = i
    by_cases hpk : p.1 = k
    · rw [if_pos hpk, ← hpk]; exact hpi
    · rw [if_neg hpk]; exact hpi
  · rw [if_neg hc]
    unfold keys at h ⊢
    rw [List.map_append]
    exact List.mem_append_left _ h

/-- Key preservation extends over the addition fold of
`DebuggerMonitor._monitor_loop`. -/
theorem mem_keys_foldl_dict_set (ds : List Debugger) :
    ∀ (m : List (String × String)) (i : String), i ∈ keys m →
      i ∈ keys (ds.foldl (fun m d => dict_set m d.id d.wsUrl) m) := by
  induction ds with
  | nil => intro m i h; exact h
  | cons d rest ih =>
    intro m i h
    exact ih (dict_set m d.id d.wsUrl) i (mem_keys_dict_set m d.id d.wsUrl i h)

/-- Characterization of one non-empty-snapshot tick of
`DebuggerMonitor._monitor_loop` (src/inject.py:408-437). -/
theorem monitor_loop_tick_nonempty (active : List (String × String)) (ds : List Debugger)
    (h : ¬ (ds.isEmpty = true)) :
    monitor_loop_tick active (Option.some ds) =
      (((ds.filter (fun d => decide (d.id ∉ keys active))).foldl
          (fun m d => dict_set m d.id d.wsUrl) active).filter
            (fun p => decide (p.1 ∈ ds.map Debugger.id)),
       (keys ((ds.filter (fun d => decide (d.id ∉ keys active))).foldl
          (fun m d => dict_set m d.id d.wsUrl) active)).filter
            (fun i => decide (i ∉ ds.map Debugger.id))) := by
  unfold monitor_loop_tick
  dsimp only
  rw [if_neg h]

/-- C8 counterexample — the Session Monitor never processes the valid empty
snapshot: with "A" tracked and the directory returning the empty list
(zero active sessions), the tick leaves "A" tracked and logs no closure,
because `if debuggers:` (src/inject.py:409) is false for an empty list,
refuting the claim's "including the valid empty snapshot". -/
theorem C8_counterexample :
    monitor_loop_tick [("A", "wsA")] (Option.some []) = ([("A", "wsA")], []) ∧
    "A" ∈ keys [("A", "wsA")] ∧
    "A" ∉ ([] : List Debugger).map Debugger.id := by
  exact ⟨rfl, by simp [keys], by simp⟩

/-- C8 (amended) — on every Session Monitor tick whose directory read
returns a NON-EMPTY snapshot, every tracked session whose id is absent from
that snapshot is removed from `active_debuggers` and its id is logged as
closed; a failed directory read AND an empty snapshot both leave the
tracked map unmodified (and log no closures). -/
theorem C8_removal_amended :
    (∀ (active : List (String × String)) (ds : List Debugger) (i : String),
      ds ≠ [] → i ∈ keys active → i ∉ ds.map Debugger.id →
      i ∉ keys (monitor_loop_tick active (Option.some ds)).1 ∧
      i ∈ (monitor_loop_tick active (Option.some ds)).2)
    ∧ (∀ active, monitor_loop_tick active Option.none = (active, []) ∧
        monitor_loop_tick active (Option.some []) = (active, [])) := by
  constructor
  · intro active ds i hne hmem hab
    have hne2 : ¬ (ds.isEmpty = true) := by
      cases ds with
      | nil => exact absurd rfl hne
      | cons a l => simp
    rw [monitor_loop_tick_nonempty active ds hne2]
    constructor
    · intro hcon
      unfold keys at hcon
      obtain ⟨p, hp, hpi⟩ := List.mem_map.mp hcon
      have h2 := (List.mem_filter.mp hp).2
      rw [decide_eq_true_eq] at h2
      rw [hpi] at h2
      exact hab h2
    · refine List.mem_filter.mpr ⟨ ?_, ?_⟩
      · exact mem_keys_foldl_dict_set _ active i hmem
      · simpa using hab
  · intro active
    exact ⟨rfl, rfl⟩

/-- Witness for C8 at a concrete input: "A" is tracked, the snapshot holds
only "B"; the tick drops "A" from the map and logs it closed. -/
theorem C8_removal_amended_witness :
    "A" ∉ keys (monitor_loop_tick [("A", "wsA")]
      (Option.some [Debugger.mk "B" "wsB"])).1 ∧
    "A" ∈ (monitor_loop_tick [("A", "wsA")]
      (Option.some [Debugger.mk "B" "wsB"])).2 :=
  C8_removal_amended.1 [("A", "wsA")] [Debugger.mk "B" "wsB"] "A"
    (by simp) (by simp [keys]) (by simp)

/-- C9 — the console-collector install script (src/inject.py:518-567) is
idempotent: installing on a page where the collector is already installed
(in particular, any second consecutive install) returns the
"already-setup" sentinel — distinct from the fresh-install
"setup-complete" sentinel — and leaves the page state completely
unchanged: same buffers, same flags, same number of wrapper layers around
the console functions, so forwarded output is never double-prefixed. -/
theorem C9_collector_idempotent (st : PageState) :
    setup_console_collector_script (setup_console_collector_script st).1 =
      ((setup_console_collector_script st).1, PyVal.str "already-setup") ∧
    (setup_console_collector_script (setup_console_collector_script st).1).1.logWrapDepth =
      (setup_console_collector_script st).1.logWrapDepth ∧
    PyVal.str "already-setup" ≠ PyVal.str "setup-complete" := by
  have hflag : (setup_console_collector_script st).1.collectorSetup = true := by
    unfold setup_console_collector_script
    by_cases h : st.collectorSetup = true
    · rw [if_pos h]; exact h
    · rw [if_neg h]
  have hsecond : setup_console_collector_script (setup_console_collector_script st).1 =
      ((setup_console_collector_script st).1, PyVal.str "already-setup") := by
    conv_lhs => rw [setup_console_collector_script]
    rw [if_pos hflag]
  refine ⟨hsecond, by rw [hsecond], ?_⟩
  intro hcon
  injection hcon with hcon2
  exact absurd hcon2 (by decide)

/-- C10 — each of the three drain scripts of `_poll_debugger_output`
(src/inject.py:458-503) reads and clears its buffer in one evaluation:
the first drain returns exactly the buffered contents (in order) and
empties the buffer, so a second drain with no page writes in between
returns the empty sequence — no entry is ever delivered twice — and a
drain touches no other buffer. -/
theorem C10_drain_idempotent (st : PageState) :
    (drain_messages st).2 = PyVal.list (st.messages.map PyVal.str) ∧
    (drain_messages st).1.messages = [] ∧
    (drain_messages (drain_messages st).1).2 = PyVal.list [] ∧
    (drain_errors st).2 = PyVal.list (st.errors.map PyVal.str) ∧
    (drain_errors st).1.errors = [] ∧
    (drain_errors (drain_errors st).1).2 = PyVal.list [] ∧
    (drain_warnings st).2 = PyVal.list (st.warnings.map PyVal.str) ∧
    (drain_warnings st).1.warnings = [] ∧
    (drain_warnings (drain_warnings st).1).2 = PyVal.list [] ∧
    (drain_messages st).1.errors = st.errors ∧
    (drain_messages st).1.warnings = st.warnings ∧
    (drain_errors st).1.messages = st.messages ∧
    (drain_errors st).1.warnings = st.warnings ∧
    (drain_warnings st).1.messages = st.messages ∧
    (drain_warnings st).1.errors = st.errors :=
  ⟨rfl, rfl, rfl, rfl, rfl, rfl, rfl, rfl, rfl, rfl, rfl, rfl, rfl, rfl, rfl⟩

end Ridi
